import Mathlib

/-
Verification of the equity-console client-side contract tooling.

The development shallowly embeds the input-resolution engine
(inputs/data.ts), the template selector layer (templates/selectors.ts) and
the contract-creation action (contracts/actions.ts).  JavaScript failure
modes are made explicit: a `throw "msg"` becomes `JsError.thrown msg`, a
TypeError caused by a field access on `undefined` becomes
`JsError.typeError`, and the (in practice impossible) divergence of the
recursive id resolution on adversarial maps is modelled by fuel exhaustion.
-/

namespace EquityConsole

/-- Errors a JavaScript execution can surface: a thrown string value, a
TypeError raised by accessing a field of an `undefined` lookup result, and
exhaustion of the fuel used to model the unbounded recursion of the
resolution engine. -/
inductive JsError where
  | thrown (msg : String)
  | typeError
  | outOfFuel
  deriving DecidableEq, Repr

/-- External library routines used by the engine but not part of this
repository: the node crypto SHA-256 digest, the js-sha3 SHA3-256 digest
(both digests over byte lists), and JavaScript Date.parse (`none` models
NaN).  They are modelled as abstract parameters threaded through the
embedding. -/
structure Ext where
  sha256 : List Nat → List Nat
  sha3_256 : List Nat → List Nat
  dateParse : String → Option Int

/-- Characters JavaScript parseInt skips as leading whitespace. -/
def isJsSpace (c : Char) : Bool :=
  c = ' ' || c = '\t' || c = '\n' || c = '\r'

/-- Value of a run of decimal digit characters. -/
def digitsVal (l : List Char) : Nat :=
  l.foldl (fun a c => a * 10 + (c.toNat - 48)) 0

/-- JavaScript parseInt with radix 10: skip leading whitespace, read an
optional sign, then the longest prefix of decimal digits; `none` models the
NaN result when no digit is found. -/
def parseIntJS (s : String) : Option Int :=
  let cs := s.toList.dropWhile isJsSpace
  let signed : Int × List Char :=
    match cs with
    | '-' :: rest => (-1, rest)
    | '+' :: rest => (1, rest)
    | _ => (1, cs)
  let ds := signed.2.takeWhile Char.isDigit
  if ds.isEmpty then none else some (signed.1 * (digitsVal ds : Int))

/-- Hex digit in the liberal sense of Buffer.from(-, hex): both cases. -/
def isHexDigitJS (c : Char) : Bool :=
  c.isDigit || ('a' ≤ c && c ≤ 'f') || ('A' ≤ c && c ≤ 'F')

/-- Numeric value of a hex digit character. -/
def hexVal (c : Char) : Nat :=
  if c.isDigit then c.toNat - 48
  else if 'a' ≤ c then c.toNat - 87
  else c.toNat - 55

/-- Buffer.from(str, hex) semantics on the character list: decode hex digit
pairs from the left, stopping (and truncating) at the first pair that is not
two hex digits. -/
def hexDecodeList : List Char → List Nat
  | c1 :: c2 :: rest =>
      if isHexDigitJS c1 && isHexDigitJS c2 then
        (16 * hexVal c1 + hexVal c2) :: hexDecodeList rest
      else []
  | _ => []

/-- Buffer.from(str, hex): bytes decoded from a hex string. -/
def hexDecode (s : String) : List Nat := hexDecodeList s.toList

/-- Lowercase hex digit character for a value below 16. -/
def hexChar (n : Nat) : Char :=
  if n < 10 then Char.ofNat (48 + n) else Char.ofNat (87 + n)

/-- The two lowercase hex characters of one byte. -/
def byteToHex (b : Nat) : List Char :=
  [hexChar (b / 16 % 16), hexChar (b % 16)]

/-- Buffer.prototype.toString(hex): the lowercase hex rendering of a byte
list, two characters per byte. -/
def bytesToHex (l : List Nat) : String :=
  String.mk (l.foldr (fun b acc => byteToHex b ++ acc) [])

/-- Modelled from the spec: strToHexCharCode from ../contracts/util is not
in the excerpt; per the spec it maps each character of the string to the hex
rendering of its code point. -/
def strToHexCharCode (s : String) : String :=
  String.mk (s.toList.foldr (fun c acc => Nat.toDigits 16 c.toNat ++ acc) [])

/-- Modelled from the spec: the reserved native-asset id constant
BTM_ASSET_ID from ../contracts/constants is not in the excerpt; the spec
names it as the reserved all-f asset id literal. -/
def BTM_ASSET_ID : String :=
  "ffffffffffffffffffffffffffffffffffffffffffffffffffffffffffffffff"

/-- Modelled from the spec: the numberInput lower bound MIN_NUMBER from
../inputs/constants is not in the excerpt and the spec gives only its name;
the signed 64-bit range is used. -/
def MIN_NUMBER : Int := -(2 ^ 63)

/-- Modelled from the spec: the numberInput upper bound MAX_NUMBER from
../inputs/constants is not in the excerpt and the spec gives only its name;
the signed 64-bit range is used. -/
def MAX_NUMBER : Int := 2 ^ 63 - 1

/-- The closed set of input type tags of inputs/types.ts, as enumerated by
the spec's taxonomy. -/
inductive InputType where
  | parameterInput
  | generateHashInput
  | stringInput
  | hashInput
  | publicKeyInput
  | programInput
  | generatePublicKeyInput
  | timeInput
  | generateSignatureInput
  | signatureInput
  | provideStringInput
  | providePublicKeyInput
  | provideHashInput
  | provideSignatureInput
  | providePrivateKeyInput
  | generatePrivateKeyInput
  | generateStringInput
  | booleanInput
  | numberInput
  | timestampTimeInput
  | amountInput
  | accountInput
  | xpubInput
  | pathInput
  | assetInput
  | assetAliasInput
  | assetAliasWithBTMInput
  | passwordInput
  | gasInput
  | btmUnitInput
  | provideOriginInput
  | valueInput
  | choosePublicKeyInput
  deriving DecidableEq, Repr

/-- One input node.  The TypeScript Input union is flattened into a single
structure; the optional type-specific fields default to empty/none exactly
where the corresponding TypeScript record would not carry them.
`hashTypeFunction` is the hashType.hashFunction field of a
generateHashInput, `hashFunction` the field of a provideHashInput. -/
structure Input where
  type : InputType
  name : String
  value : String
  seed : String := ""
  hashFunction : String := ""
  hashTypeFunction : String := ""
  computedData : Option String := none
  keyData : Option (String × String) := none
  keyMap : Option (List (String × String × String)) := none
  deriving DecidableEq, Repr

/-- InputMap: mapping from input name to Input, kept in insertion order. -/
abbrev InputMap := List (String × Input)

/-- Lookup in an input map; `none` models an `undefined` indexing result. -/
def InputMap.lookup (m : InputMap) (id : String) : Option Input :=
  List.lookup id m

/-- Lookup whose missing case is the TypeError a field access on the
`undefined` result would raise. -/
def lookupE (m : InputMap) (id : String) : Except JsError Input :=
  match m.lookup id with
  | none => .error .typeError
  | some i => .ok i

/-- getChild: the child id of a complex input. -/
def getChild (input : Input) : String := input.name ++ "." ++ input.value

/-- isPrimaryInputType of inputs/data.ts (membership in the primary set,
tested on the string value of a parameter/generate-hash input). -/
def isPrimaryInputType (str : String) : Bool :=
  match str with
  | "hashInput" | "numberInput" | "booleanInput" | "stringInput"
  | "publicKeyInput" | "timeInput" | "signatureInput" | "valueInput"
  | "programInput" | "assetInput" | "amountInput" | "provideOriginInput" => true
  | _ => false

/-- validateHex of inputs/data.ts: zero or more pairs of lowercase hex
digits (regex ([a-f0-9][a-f0-9])*). -/
def validateHex (str : String) : Bool :=
  (str.length % 2 == 0) && str.toList.all fun c => c.isDigit || ('a' ≤ c && c ≤ 'f')

/-- validateInput of inputs/data.ts: single-node validation.  The switch is
translated case for case, in source order; in particular the first of the
two duplicate generatePublicKeyInput case labels is the one a JavaScript
switch dispatches to, so the later label (requiring accountInput) is dead
code and does not appear. -/
def validateInput (ext : Ext) (input : Input) : Except JsError Bool :=
  match input.type with
  | .parameterInput | .generateHashInput =>
      .ok (isPrimaryInputType input.value)
  | .stringInput =>
      .ok (input.value == "generateStringInput" || input.value == "provideStringInput")
  | .hashInput =>
      .ok (input.value == "generateHashInput" || input.value == "provideHashInput")
  | .publicKeyInput | .programInput =>
      .ok (input.value == "accountInput" || input.value == "provideStringInput")
  | .generatePublicKeyInput =>
      .ok (input.value == "generatePrivateKeyInput" || input.value == "providePrivateKeyInput")
  | .timeInput =>
      .ok (input.value == "timestampTimeInput")
  | .generateSignatureInput =>
      .ok (input.value == "providePrivateKeyInput")
  | .provideStringInput =>
      .ok (validateHex input.value)
  | .provideHashInput =>
      if !validateHex input.value then .ok false
      else
        match input.hashFunction with
        | "sha256" | "sha3" => .ok (input.value.length == 64)
        | _ => .error (.thrown ("unsupported hash function: " ++ input.hashFunction))
  | .generateStringInput =>
      match parseIntJS input.value with
      | none => .ok false
      | some l =>
          if l < 0 ∨ l > 520 then .ok false
          else .ok (input.seed.length == 1040)
  | .booleanInput =>
      .ok (input.value == "true" || input.value == "false")
  | .numberInput =>
      match parseIntJS input.value with
      | none => .ok false
      | some n => .ok (decide (MIN_NUMBER ≤ n ∧ n ≤ MAX_NUMBER))
  | .timestampTimeInput =>
      .ok (ext.dateParse input.value).isSome
  | .amountInput =>
      match parseIntJS input.value with
      | none => .ok false
      | some n => .ok (decide (0 ≤ n))
  | .accountInput | .xpubInput | .pathInput | .assetInput | .passwordInput
  | .gasInput | .btmUnitInput | .signatureInput | .assetAliasWithBTMInput
  | .provideOriginInput =>
      .ok (input.value != "")
  | .assetAliasInput =>
      .ok (input.value != "" && input.value != BTM_ASSET_ID)
  | .valueInput =>
      .ok true
  | .choosePublicKeyInput =>
      .ok input.keyMap.isSome
  | _ =>
      .error (.thrown "input type not valid")

/-- getGenerateStringInputValue of inputs/data.ts: the first length*2
characters of the seed, where length is parseInt(value, 10); throws when
the length is NaN, negative or above 520. -/
def getGenerateStringInputValue (input : Input) : Except JsError String :=
  match parseIntJS input.value with
  | none =>
      .error (.thrown ("invalid length value for generateStringInput: " ++ input.value))
  | some l =>
      if l < 0 ∨ l > 520 then
        .error (.thrown ("invalid length value for generateStringInput: " ++ input.value))
      else .ok (input.seed.take (l * 2).toNat)

/-- Resolved data of an input: a byte payload or a number. -/
inductive GData where
  | bytes (b : List Nat)
  | num (n : Int)
  deriving DecidableEq, Repr

/-- getData of inputs/data.ts.  The looked-up input must pass validateInput,
then the switch dispatches on its type; recursion into child ids consumes
one unit of fuel per step.  The NaN-valued returns of the numberInput,
amountInput and timestampTimeInput branches are unreachable because the
validateInput guard already rejected unparseable values, so those match
arms carry an arbitrary number. -/
def getData (ext : Ext) (fuel : Nat) (inputId : String) (inputsById : InputMap) :
    Except JsError GData :=
  match fuel with
  | 0 => .error .outOfFuel
  | fuel + 1 =>
    match inputsById.lookup inputId with
    | none => .error .typeError
    | some input => do
      let v ← validateInput ext input
      if !v then throw (.thrown ("invalid input: " ++ input.name))
      else
        match input.type with
        | .timeInput | .parameterInput | .stringInput | .hashInput | .signatureInput =>
            getData ext fuel (getChild input) inputsById
        | .programInput | .publicKeyInput =>
            match input.computedData with
            | none => .error (.thrown "input.computedData unexpectedly undefined")
            | some s => .ok (.bytes (hexDecode s))
        | .provideStringInput | .providePublicKeyInput | .provideHashInput
        | .provideSignatureInput =>
            .ok (.bytes (hexDecode input.value))
        | .assetInput =>
            match input.computedData with
            | none => .error .typeError
            | some s => .ok (.bytes (hexDecode s))
        | .numberInput | .amountInput =>
            match parseIntJS input.value with
            | none => .ok (.num 0)
            | some n => .ok (.num n)
        | .booleanInput =>
            .ok (.num (if input.value == "true" then 0 else 1))
        | .timestampTimeInput =>
            match ext.dateParse input.value with
            | none => .ok (.num 0)
            | some t => .ok (.num t)
        | .generateStringInput => do
            let generated ← getGenerateStringInputValue input
            .ok (.bytes (hexDecode generated))
        | .provideOriginInput =>
            .ok (.bytes (hexDecode (strToHexCharCode input.value)))
        | .generateHashInput => do
            let childData ← getData ext fuel (getChild input) inputsById
            match childData with
            | .num _ => .error (.thrown "should not generate hash of a number")
            | .bytes b =>
              match input.hashTypeFunction with
              | "sha256" => .ok (.bytes (ext.sha256 b))
              | "sha3" => .ok (.bytes (ext.sha3_256 b))
              | _ => .error (.thrown "unexpected hash function")
        | _ => .error (.thrown "should not call getData with this type")

/-- computeDataForInput of inputs/data.ts: hex rendering of the resolved
data, throwing when the data is numeric. -/
def computeDataForInput (ext : Ext) (fuel : Nat) (id : String) (m : InputMap) :
    Except JsError String := do
  let data ← getData ext fuel id m
  match data with
  | .num _ => .error (.thrown "should not get data for a number")
  | .bytes b => .ok (bytesToHex b)

/-- isValidInput of inputs/data.ts: recursive subtree validation.  Chain
types recurse into the child id, valueInput conjoins its five fixed
children with the short-circuit evaluation of the JavaScript && operator,
and every other type delegates to validateInput. -/
def isValidInput (ext : Ext) (fuel : Nat) (id : String) (inputMap : InputMap) :
    Except JsError Bool :=
  match fuel with
  | 0 => .error .outOfFuel
  | fuel + 1 =>
    match inputMap.lookup id with
    | none => .error .typeError
    | some input =>
      match input.type with
      | .parameterInput | .stringInput | .hashInput | .generateHashInput
      | .publicKeyInput | .timeInput | .signatureInput | .programInput =>
          isValidInput ext fuel (getChild input) inputMap
      | .valueInput => do
          let a ← isValidInput ext fuel (input.name ++ ".accountInput") inputMap
          if !a then .ok false else do
          let b ← isValidInput ext fuel (input.name ++ ".assetInput") inputMap
          if !b then .ok false else do
          let c ← isValidInput ext fuel (input.name ++ ".amountInput") inputMap
          if !c then .ok false else do
          let d ← isValidInput ext fuel (input.name ++ ".passwordInput") inputMap
          if !d then .ok false else
          isValidInput ext fuel (input.name ++ ".gasInput") inputMap
      | _ => validateInput ext input

/-- SpendFromAccount of core/types.ts, the funding-source descriptor. -/
structure SpendFromAccount where
  type : String := "spendFromAccount"
  accountId : String
  assetId : String
  amount : Int
  password : String
  deriving DecidableEq, Repr

/-- getInputList of templates/selectors.ts: the input map flattened to its
entries in insertion order. -/
def getInputList (m : InputMap) : List Input := m.map Prod.snd

/-- The loop body of getContractValue of templates/selectors.ts: walk the
input list; for every valueInput read the accountInput, assetInput,
amountInput and passwordInput children (a missing child is a TypeError),
skip the entry when the amount does not parse to a non-negative integer or
the account or asset id is empty, and otherwise collect a SpendFromAccount.
The gasInput child is never read. -/
def collectValueSources (m : InputMap) : List Input → Except JsError (List SpendFromAccount)
  | [] => .ok []
  | input :: rest =>
    if input.type = .valueInput then do
      let accountId := (← lookupE m (input.name ++ ".accountInput")).value
      let assetId := (← lookupE m (input.name ++ ".assetInput")).value
      let amountStr := (← lookupE m (input.name ++ ".amountInput")).value
      let password := (← lookupE m (input.name ++ ".passwordInput")).value
      let tail ← collectValueSources m rest
      match parseIntJS amountStr with
      | none => .ok tail
      | some amount =>
        if amount < 0 ∨ accountId = "" ∨ assetId = "" then .ok tail
        else .ok ({ accountId := accountId, assetId := assetId,
                    amount := amount, password := password } :: tail)
    else collectValueSources m rest

/-- getContractValue of templates/selectors.ts: the single derivable
funding source, or none when the number of collected sources is not exactly
one. -/
def getContractValue (m : InputMap) : Except JsError (Option SpendFromAccount) := do
  let sources ← collectValueSources m (getInputList m)
  match sources with
  | [s] => .ok (some s)
  | _ => .ok none

/-- The compile result stored in template state: name, control program,
declared parameter names, opcodes and the value-slot name. -/
structure CompiledTemplate where
  name : String
  program : String
  params : List String
  opcodes : String
  value : String
  deriving DecidableEq, Repr

/-- The templates slice of application state (the fields this excerpt
reads). -/
structure TemplateState where
  source : String
  sourceMap : List (String × String)
  idList : List String
  protectedIdList : List String
  inputMap : Option InputMap
  compiled : Option CompiledTemplate
  showLockInputErrors : Bool
  deriving DecidableEq, Repr

/-- Application state as seen by the selectors of this excerpt. -/
structure AppState where
  templates : TemplateState
  deriving DecidableEq, Repr

/-- getTemplateState of templates/selectors.ts. -/
def getTemplateState (st : AppState) : TemplateState := st.templates

/-- getSource of templates/selectors.ts. -/
def getSource (st : AppState) : String := (getTemplateState st).source

/-- getInputMap of templates/selectors.ts. -/
def getInputMap (st : AppState) : Option InputMap := (getTemplateState st).inputMap

/-- getCompiled of templates/selectors.ts. -/
def getCompiled (st : AppState) : Option CompiledTemplate := (getTemplateState st).compiled

/-- getContractParameters of templates/selectors.ts: undefined propagates. -/
def getContractParameters (st : AppState) : Option (List String) :=
  (getCompiled st).map (·.params)

/-- getParameterIds of templates/selectors.ts: parameter names prefixed
with the contractParameters context. -/
def getParameterIds (st : AppState) : Option (List String) :=
  (getContractParameters st).map (fun ps => ps.map (fun p => "contractParameters." ++ p))

/-- getContractValueId of templates/selectors.ts. -/
def getContractValueId (st : AppState) : Option String :=
  (getCompiled st).map (fun c => "contractValue." ++ c.value)

/-- The filter predicate pass of areInputsValid: isValidInput is evaluated
on every id (Array.prototype.filter does not short-circuit), and a thrown
error from any evaluation propagates. -/
def allValidE (ext : Ext) (fuel : Nat) (m : InputMap) :
    List String → Except JsError Bool
  | [] => .ok true
  | id :: rest => do
    let v ← isValidInput ext fuel id m
    let r ← allValidE ext fuel m rest
    .ok (v && r)

/-- areInputsValid of templates/selectors.ts: false when the input map, the
parameter ids or the contract value id is undefined; otherwise every
parameter id and the value id must pass isValidInput. -/
def areInputsValid (ext : Ext) (fuel : Nat) (st : AppState) : Except JsError Bool :=
  match getInputMap st, getParameterIds st, getContractValueId st with
  | some m, some pids, some cvid => allValidE ext fuel m (pids ++ [cvid])
  | _, _, _ => .ok false

/-- The body of the try block of getContractArgs: getData on each parameter
id in order, stopping at the first failure. -/
def mapGetData (ext : Ext) (fuel : Nat) (m : InputMap) :
    List String → Except JsError (List GData)
  | [] => .ok []
  | id :: rest => do
    let d ← getData ext fuel id m
    let ds ← mapGetData ext fuel m rest
    .ok (d :: ds)

/-- getContractArgs of templates/selectors.ts: throws when the parameter-id
list is undefined; otherwise resolves every id through getData, catching
any resolution failure and converting it to an empty list. -/
def getContractArgs (ext : Ext) (fuel : Nat) (st : AppState) (inputMap : InputMap) :
    Except JsError (List GData) :=
  match getParameterIds st with
  | none => .error (.thrown "parameter IDs should not be undefined when getParameterData is called")
  | some pids =>
    match mapGetData ext fuel inputMap pids with
    | .error _ => .ok []
    | .ok args => .ok args

/-- A coerced contract argument on the wire: the tagged values string,
integer and boolean. -/
inductive WireValue where
  | stringVal (s : String)
  | integerVal (n : Int)
  | booleanVal (b : Bool)
  deriving DecidableEq, Repr

/-- The runtime type cases the argument-coercion code of
contracts/actions.ts distinguishes: Buffer, string, number, boolean, and
any other runtime type (carrying its typeof name). -/
inductive ArgValue where
  | buffer (b : List Nat)
  | stringArg (s : String)
  | numberArg (n : Int)
  | booleanArg (b : Bool)
  | otherArg (typeName : String)
  deriving DecidableEq, Repr

/-- The argument coercion of the create flow (contracts/actions.ts lines
72-88), in source order: Buffer to its hex rendering tagged string, string
to tagged string, number to tagged integer, boolean to tagged boolean, and
anything else throws. -/
def coerceArg : ArgValue → Except JsError WireValue
  | .buffer b => .ok (.stringVal (bytesToHex b))
  | .stringArg s => .ok (.stringVal s)
  | .numberArg n => .ok (.integerVal n)
  | .booleanArg b => .ok (.booleanVal b)
  | .otherArg t => .error (.thrown ("unsupported argument type " ++ t))

/-- Injection of getData results into the runtime argument values the
coercion inspects: resolved arguments are Buffers or numbers. -/
def argOfGData : GData → ArgValue
  | .bytes b => .buffer b
  | .num n => .numberArg n

/-- Array.prototype.map over coerceArg: left to right, first throw
propagates. -/
def coerceArgs : List GData → Except JsError (List WireValue)
  | [] => .ok []
  | d :: rest => do
    let w ← coerceArg (argOfGData d)
    let ws ← coerceArgs rest
    .ok (w :: ws)

/-- The lock message payloads dispatched by the create flow. -/
inductive LockMessage where
  | errorText (msg : String)
  | errorRaw (e : JsError)
  | successMsg (txId : String)
  deriving DecidableEq, Repr

/-- The redux actions the create flow dispatches. -/
inductive DAction where
  | updateIsCalling (b : Bool)
  | showLockInputMessages (b : Bool)
  | updateLockMessage (m : LockMessage)
  | setSource (s : String)
  deriving DecidableEq, Repr

/-- One derived public key of client.createAccountPubkey. -/
structure PubkeyInfo where
  pubkey : String
  derivationPath : String
  deriving DecidableEq, Repr

/-- Response of client.createAccountPubkey. -/
structure AccountPubkeyResult where
  rootXpub : String
  pubkeyInfos : List PubkeyInfo
  deriving DecidableEq, Repr

/-- Response of client.compile: status, compiled control program and the
error payload of a fail response. -/
structure CompileResponse where
  status : String
  program : String
  errData : String
  deriving DecidableEq, Repr

/-- Response of createLockingTx. -/
structure LockingTxResult where
  transactionId : String
  deriving DecidableEq, Repr

/-- The transaction actions assembled by the create flow. -/
inductive TxAction where
  | spendFromAccountAction (s : SpendFromAccount)
  | controlWithReceiverAction (controlProgram : String) (assetId : String) (amount : Int)
  | gasAction (accountId : String) (amount : Int) (assetId : String)
  deriving DecidableEq, Repr

/-- The remote client boundary, modelled as response oracles. -/
structure ClientEnv where
  listReceiver : String → Except JsError String
  createAccountPubkey : String → Except JsError AccountPubkeyResult
  compile : String → List WireValue → Except JsError CompileResponse
  createLockingTx : List TxAction → String → Except JsError LockingTxResult

/-- getPromiseData of inputs/data.ts: attach computedData (and keyData) to
an assetInput, programInput or publicKeyInput by reading its chosen child,
calling the remote client where the child is not a provideStringInput. -/
def getPromiseData (env : ClientEnv) (inputId : String) (m : InputMap) :
    Except JsError Input := do
  let input ← lookupE m inputId
  match input.type with
  | .assetInput => do
      let child ← lookupE m (input.name ++ "." ++ input.value)
      .ok { input with computedData := some child.value }
  | .programInput => do
      let child ← lookupE m (input.name ++ "." ++ input.value)
      if input.value = "provideStringInput" then
        .ok { input with computedData := some child.value }
      else do
        let controlProgram ← env.listReceiver child.value
        .ok { input with computedData := some controlProgram }
  | .publicKeyInput => do
      let child ← lookupE m (input.name ++ "." ++ input.value)
      if input.value = "provideStringInput" then
        .ok { input with computedData := some child.value }
      else do
        let pk ← env.createAccountPubkey child.value
        match pk.pubkeyInfos with
        | [] => .error .typeError
        | info :: _ =>
            .ok { input with computedData := some info.pubkey,
                             keyData := some (pk.rootXpub, info.derivationPath) }
  | _ => .error (.thrown "cannot call getPromiseData with this type")

/-- One entry of getPromisedInputMap: publicKeyInput, programInput and
assetInput entries are replaced by their getPromiseData resolution, all
others pass through. -/
def resolveEntry (env : ClientEnv) (m : InputMap) (p : String × Input) :
    Except JsError (String × Input) :=
  match p.2.type with
  | .publicKeyInput | .programInput | .assetInput => do
      let r ← getPromiseData env p.1 m
      .ok (p.1, r)
  | _ => .ok p

/-- getPromisedInputMap of inputs/data.ts: resolve every network-dependent
entry; the combined result fails when any one resolution fails. -/
def getPromisedInputMap (env : ClientEnv) (m : InputMap) : Except JsError InputMap :=
  m.mapM (resolveEntry env m)

/-- Observable outcome of one create invocation: the dispatched actions in
order, the compile calls made (source and coerced arguments) and the number
of locking-transaction submissions. -/
structure CreateTrace where
  dispatched : List DAction
  compileCalls : List (String × List WireValue)
  lockingTxCalls : Nat
  deriving DecidableEq, Repr

/-- The promise chain of the create flow after the synchronous prefix:
resolve the input map, resolve and coerce the contract arguments, compile,
reject on a fail status, assemble the spend, control-with-receiver and
fixed gas actions and submit the locking transaction.  Returns the compile
calls made, the locking-transaction call count and the chain outcome. -/
def createChain (ext : Ext) (env : ClientEnv) (fuel : Nat) (st : AppState)
    (inputMap : InputMap) (source : String) (spend : SpendFromAccount) :
    List (String × List WireValue) × Nat × Except JsError String :=
  match getPromisedInputMap env inputMap with
  | .error e => ([], 0, .error e)
  | .ok resolved =>
    match getContractArgs ext fuel st resolved with
    | .error e => ([], 0, .error e)
    | .ok args =>
      match coerceArgs args with
      | .error e => ([], 0, .error e)
      | .ok wargs =>
        match env.compile source wargs with
        | .error e => ([(source, wargs)], 0, .error e)
        | .ok resp =>
          if resp.status = "fail" then ([(source, wargs)], 0, .error (.thrown resp.errData))
          else
            let actions : List TxAction :=
              [.spendFromAccountAction spend,
               .controlWithReceiverAction resp.program spend.assetId spend.amount,
               .gasAction spend.accountId 20000000
                 "ffffffffffffffffffffffffffffffffffffffffffffffffffffffffffffffff"]
            match env.createLockingTx actions spend.password with
            | .error e => ([(source, wargs)], 1, .error e)
            | .ok utxo => ([(source, wargs)], 1, .ok utxo.transactionId)

/-- create of contracts/actions.ts: mark busy; when areInputsValid fails,
clear busy, enable lock-input messages, dispatch the fixed invalid-argument
message and stop; otherwise read the input map, source and funding source
(throwing when absent) and run the promise chain, dispatching the success
or the caught-error sequence. -/
def create (ext : Ext) (env : ClientEnv) (fuel : Nat) (st : AppState) :
    Except JsError CreateTrace := do
  let valid ← areInputsValid ext fuel st
  if !valid then
    .ok { dispatched :=
            [.updateIsCalling true, .updateIsCalling false, .showLockInputMessages true,
             .updateLockMessage (.errorText "One or more arguments to the contract are invalid.")],
          compileCalls := [], lockingTxCalls := 0 }
  else
    match getInputMap st with
    | none => .error (.thrown "create should not have been called when inputMap is undefined")
    | some inputMap => do
      let source := getSource st
      let cv ← getContractValue inputMap
      match cv with
      | none => .error (.thrown "spendFromAccount should not be undefined here")
      | some spend =>
        match createChain ext env fuel st inputMap source spend with
        | (cc, lc, .ok txId) =>
            .ok { dispatched :=
                    [.updateIsCalling true, .setSource source, .updateIsCalling false,
                     .updateLockMessage (.successMsg txId), .showLockInputMessages true],
                  compileCalls := cc, lockingTxCalls := lc }
        | (cc, lc, .error e) =>
            .ok { dispatched :=
                    [.updateIsCalling true, .updateIsCalling false,
                     .updateLockMessage (.errorRaw e), .showLockInputMessages true],
                  compileCalls := cc, lockingTxCalls := lc }

/-! Declarative companions used to state the funding-source claim, written
from the claim wording rather than the loop of the source. -/

/-- Value of a child input, when the child is present. -/
def childValue (m : InputMap) (id : String) : Option String :=
  (m.lookup id).map Input.value

/-- Declarative qualification of one input as a funding source: it is a
valueInput whose accountInput and assetInput child values are non-empty and
whose amountInput child parses to a non-negative integer; the resulting
SpendFromAccount copies the child values and the parsed amount. -/
def qualifyingSpend (m : InputMap) (input : Input) : Option SpendFromAccount :=
  if input.type = .valueInput then
    match childValue m (input.name ++ ".accountInput"),
          childValue m (input.name ++ ".assetInput"),
          childValue m (input.name ++ ".amountInput"),
          childValue m (input.name ++ ".passwordInput") with
    | some acc, some ast, some amt, some pwd =>
      match parseIntJS amt with
      | none => none
      | some k =>
          if k < 0 ∨ acc = "" ∨ ast = "" then none
          else some { accountId := acc, assetId := ast, amount := k, password := pwd }
    | _, _, _, _ => none
  else none

/-- All qualifying funding sources of an input map, in entry order. -/
def qualifyingSpends (m : InputMap) : List SpendFromAccount :=
  (getInputList m).filterMap (qualifyingSpend m)

/-- Well-formedness of an input map for the funding-source scan: every
valueInput entry has the four children the scan reads (the gasInput child
is never read and therefore not required). -/
def valueChildrenPresent (m : InputMap) : Prop :=
  ∀ input ∈ getInputList m, input.type = .valueInput →
    (m.lookup (input.name ++ ".accountInput")).isSome ∧
    (m.lookup (input.name ++ ".assetInput")).isSome ∧
    (m.lookup (input.name ++ ".amountInput")).isSome ∧
    (m.lookup (input.name ++ ".passwordInput")).isSome

instance (m : InputMap) : Decidable (valueChildrenPresent m) := by
  unfold valueChildrenPresent; infer_instance

/-! Concrete fixtures used by the witnesses. -/

/-- A trivial instantiation of the external library routines. -/
def ext0 : Ext :=
  { sha256 := fun _ => [], sha3_256 := fun _ => [], dateParse := fun _ => none }

/-- A trivial client-boundary oracle. -/
def env0 : ClientEnv :=
  { listReceiver := fun _ => .ok ""
    createAccountPubkey := fun _ => .ok { rootXpub := "", pubkeyInfos := [] }
    compile := fun _ _ => .ok { status := "success", program := "", errData := "" }
    createLockingTx := fun _ _ => .ok { transactionId := "" } }

/-- A state with nothing compiled and no input map. -/
def st0 : AppState :=
  { templates :=
      { source := "", sourceMap := [], idList := [], protectedIdList := [],
        inputMap := none, compiled := none, showLockInputErrors := false } }

/-- A complete single valueInput subtree (the claimed funding example). -/
def mExample : InputMap :=
  [("contractValue.lockedValue",
    { type := .valueInput, name := "contractValue.lockedValue", value := "" }),
   ("contractValue.lockedValue.accountInput",
    { type := .accountInput, name := "contractValue.lockedValue.accountInput", value := "acc1" }),
   ("contractValue.lockedValue.assetInput",
    { type := .assetInput, name := "contractValue.lockedValue.assetInput", value := "asset1" }),
   ("contractValue.lockedValue.amountInput",
    { type := .amountInput, name := "contractValue.lockedValue.amountInput", value := "500" }),
   ("contractValue.lockedValue.passwordInput",
    { type := .passwordInput, name := "contractValue.lockedValue.passwordInput", value := "pw" })]

/-- A valueInput subtree with parametric child values and no gasInput child
at all. -/
def valueMapNoGas (acc ast amt pwd : String) : InputMap :=
  [("contractValue.lockedValue",
    { type := .valueInput, name := "contractValue.lockedValue", value := "" }),
   ("contractValue.lockedValue.accountInput",
    { type := .accountInput, name := "contractValue.lockedValue.accountInput", value := acc }),
   ("contractValue.lockedValue.assetInput",
    { type := .assetInput, name := "contractValue.lockedValue.assetInput", value := ast }),
   ("contractValue.lockedValue.amountInput",
    { type := .amountInput, name := "contractValue.lockedValue.amountInput", value := amt }),
   ("contractValue.lockedValue.passwordInput",
    { type := .passwordInput, name := "contractValue.lockedValue.passwordInput", value := pwd })]

/-- A generatePublicKeyInput carrying the value the spec claims the
reachable branch accepts. -/
def gpkAccountInput : Input :=
  { type := .generatePublicKeyInput,
    name := "contractParameters.k.generatePublicKeyInput",
    value := "accountInput" }

/-- A generateHashInput over an origin-string child, with a parametric hash
function name. -/
def mHash (fn : String) : InputMap :=
  [("contractParameters.h",
    { type := .generateHashInput, name := "contractParameters.h",
      value := "provideOriginInput", hashTypeFunction := fn }),
   ("contractParameters.h.provideOriginInput",
    { type := .provideOriginInput, name := "contractParameters.h.provideOriginInput",
      value := "a" })]

/-- A generateHashInput whose child resolves to a number. -/
def mHashNum : InputMap :=
  [("contractParameters.h",
    { type := .generateHashInput, name := "contractParameters.h",
      value := "numberInput", hashTypeFunction := "sha256" }),
   ("contractParameters.h.numberInput",
    { type := .numberInput, name := "contractParameters.h.numberInput",
      value := "5" })]

/-- A compiled template with one declared parameter. -/
def tmpl0 : CompiledTemplate :=
  { name := "t", program := "", params := ["p"], opcodes := "", value := "v" }

/-- A state whose compile result declares the single parameter p. -/
def stP : AppState :=
  { templates :=
      { source := "", sourceMap := [], idList := [], protectedIdList := [],
        inputMap := none, compiled := some tmpl0, showLockInputErrors := false } }

/-- A map resolving the single parameter p to a boolean. -/
def mBool : InputMap :=
  [("contractParameters.p",
    { type := .booleanInput, name := "contractParameters.p", value := "false" })]

/-! Theorems. -/

/-- Reduction of a successful Except bind. -/
@[simp] theorem okBind {ε α β : Type} (a : α) (f : α → Except ε β) :
    (Except.ok a : Except ε α) >>= f = f a := rfl

/-- Reduction of a failed Except bind. -/
@[simp] theorem errorBind {ε α β : Type} (e : ε) (f : α → Except ε β) :
    (Except.error e : Except ε α) >>= f = Except.error e := rfl

/-- C1: whenever the aggregate validity selector areInputsValid yields
false, the create action dispatches updateIsCalling(true) then
updateIsCalling(false), showLockInputMessages(true) and the fixed message
"One or more arguments to the contract are invalid.", makes no compile call
and submits no transaction. -/
theorem create_invalid_inputs (ext : Ext) (env : ClientEnv) (fuel : Nat) (st : AppState)
    (h : areInputsValid ext fuel st = .ok false) :
    create ext env fuel st = .ok
      { dispatched :=
          [.updateIsCalling true, .updateIsCalling false, .showLockInputMessages true,
           .updateLockMessage (.errorText "One or more arguments to the contract are invalid.")],
        compileCalls := [], lockingTxCalls := 0 } := by
  unfold create
  rw [h]
  rfl

/-- Witness for C1: in a state with nothing compiled, areInputsValid is
false and create stops with exactly the invalid-arguments dispatches. -/
theorem create_invalid_inputs_witness :
    create ext0 env0 1 st0 = .ok
      { dispatched :=
          [.updateIsCalling true, .updateIsCalling false, .showLockInputMessages true,
           .updateLockMessage (.errorText "One or more arguments to the contract are invalid.")],
        compileCalls := [], lockingTxCalls := 0 } :=
  create_invalid_inputs ext0 env0 1 st0 rfl

/-- C3: on a booleanInput whose value passes validateInput, getData returns
the number 0 for the value true and the number 1 for the value false (the
inverted polarity). -/
theorem getData_booleanInput_inverted (ext : Ext) (fuel : Nat) (id : String) (m : InputMap)
    (input : Input) (hm : m.lookup id = some input) (ht : input.type = .booleanInput) :
    (input.value = "true" → getData ext (fuel + 1) id m = .ok (.num 0)) ∧
    (input.value = "false" → getData ext (fuel + 1) id m = .ok (.num 1)) := by
  constructor <;> intro hv <;> simp [getData, hm, validateInput, ht, hv]

/-- Witness for C3: a concrete booleanInput with value false resolves to
the number 1, and one with value true to the number 0. -/
theorem getData_booleanInput_inverted_witness :
    getData ext0 1 "contractParameters.b"
      [("contractParameters.b",
        { type := .booleanInput, name := "contractParameters.b", value := "false" })] =
      .ok (.num 1) ∧
    getData ext0 1 "contractParameters.b"
      [("contractParameters.b",
        { type := .booleanInput, name := "contractParameters.b", value := "true" })] =
      .ok (.num 0) := by
  constructor
  · exact (getData_booleanInput_inverted ext0 0 "contractParameters.b"
      [("contractParameters.b",
        { type := .booleanInput, name := "contractParameters.b", value := "false" })]
      { type := .booleanInput, name := "contractParameters.b", value := "false" }
      rfl rfl).2 rfl
  · exact (getData_booleanInput_inverted ext0 0 "contractParameters.b"
      [("contractParameters.b",
        { type := .booleanInput, name := "contractParameters.b", value := "true" })]
      { type := .booleanInput, name := "contractParameters.b", value := "true" }
      rfl rfl).1 rfl

/-- C6: getGenerateStringInputValue returns the first length*2 characters
of the seed for a parsed length within 0..520, and throws the fixed
invalid-length message when the parse is NaN, negative, or above 520. -/
theorem getGenerateStringInputValue_spec (input : Input) :
    (∀ l : Int, parseIntJS input.value = some l → 0 ≤ l → l ≤ 520 →
      getGenerateStringInputValue input = .ok (input.seed.take (l * 2).toNat)) ∧
    (parseIntJS input.value = none →
      getGenerateStringInputValue input =
        .error (.thrown ("invalid length value for generateStringInput: " ++ input.value))) ∧
    (∀ l : Int, parseIntJS input.value = some l → (l < 0 ∨ 520 < l) →
      getGenerateStringInputValue input =
        .error (.thrown ("invalid length value for generateStringInput: " ++ input.value))) := by
  refine ⟨?_, ?_, ?_⟩
  · intro l hl h0 h520
    simp only [getGenerateStringInputValue, hl]
    rw [if_neg]
    push_neg
    exact ⟨h0, h520⟩
  · intro hl
    simp [getGenerateStringInputValue, hl]
  · intro l hl hout
    simp only [getGenerateStringInputValue, hl]
    rw [if_pos]
    rcases hout with h | h
    · exact Or.inl h
    · exact Or.inr h

set_option maxRecDepth 8192 in
/-- Witness for C6: with value 4 and a 1040-character seed the first 8
characters are returned, and value 521 throws. -/
theorem getGenerateStringInputValue_witness :
    getGenerateStringInputValue
      { type := .generateStringInput, name := "contractParameters.s", value := "4",
        seed := String.mk (List.replicate 1040 'a') } =
      .ok (String.mk (List.replicate 8 'a')) ∧
    getGenerateStringInputValue
      { type := .generateStringInput, name := "contractParameters.s", value := "521",
        seed := String.mk (List.replicate 1040 'a') } =
      .error (.thrown "invalid length value for generateStringInput: 521") := by
  constructor
  · have h := (getGenerateStringInputValue_spec
      { type := .generateStringInput, name := "contractParameters.s", value := "4",
        seed := String.mk (List.replicate 1040 'a') }).1 4 (by decide) (by decide) (by decide)
    exact h.trans (congrArg Except.ok (by decide))
  · have h := (getGenerateStringInputValue_spec
      { type := .generateStringInput, name := "contractParameters.s", value := "521",
        seed := String.mk (List.replicate 1040 'a') }).2.2 521 (by decide) (Or.inr (by decide))
    exact h

/-- C4: on a generateHashInput, getData hashes the child's byte payload
with the digest named by hashType.hashFunction (SHA-256 for sha256,
SHA3-256 for sha3), throws when the child resolves to a number, and throws
the fixed unexpected-hash-function message for any other name. -/
theorem getData_generateHashInput (ext : Ext) (fuel : Nat) (id : String) (m : InputMap)
    (input : Input) (hm : m.lookup id = some input) (ht : input.type = .generateHashInput)
    (hpv : isPrimaryInputType input.value = true) :
    (∀ b : List Nat, getData ext fuel (getChild input) m = .ok (.bytes b) →
      (input.hashTypeFunction = "sha256" →
        getData ext (fuel + 1) id m = .ok (.bytes (ext.sha256 b))) ∧
      (input.hashTypeFunction = "sha3" →
        getData ext (fuel + 1) id m = .ok (.bytes (ext.sha3_256 b))) ∧
      (input.hashTypeFunction ≠ "sha256" → input.hashTypeFunction ≠ "sha3" →
        getData ext (fuel + 1) id m = .error (.thrown "unexpected hash function"))) ∧
    (∀ n : Int, getData ext fuel (getChild input) m = .ok (.num n) →
      getData ext (fuel + 1) id m = .error (.thrown "should not generate hash of a number")) := by
  have hval : validateInput ext input = .ok true := by simp [validateInput, ht, hpv]
  constructor
  · intro b hb
    refine ⟨?_, ?_, ?_⟩
    · intro h1
      simp [getData, hm, hval, ht, hb, h1]
    · intro h1
      simp [getData, hm, hval, ht, hb, h1]
    · intro h1 h2
      simp only [getData, hm, hval, ht, okBind, hb]
      split <;> simp_all
  · intro n hn
    simp [getData, hm, hval, ht, hn]

/-- Witness for C4: with the trivial digest oracles, a sha256
generateHashInput over the byte 0x61 yields the oracle digest, a sha3 one
likewise, an md5 one throws the unexpected-hash-function message, and a
numeric child throws. -/
theorem getData_generateHashInput_witness :
    getData ext0 2 "contractParameters.h" (mHash "sha256") = .ok (.bytes []) ∧
    getData ext0 2 "contractParameters.h" (mHash "sha3") = .ok (.bytes []) ∧
    getData ext0 2 "contractParameters.h" (mHash "md5") =
      .error (.thrown "unexpected hash function") ∧
    getData ext0 2 "contractParameters.h" mHashNum =
      .error (.thrown "should not generate hash of a number") := by
  refine ⟨?_, ?_, ?_, ?_⟩
  · exact (((getData_generateHashInput ext0 1 "contractParameters.h" (mHash "sha256")
      { type := .generateHashInput, name := "contractParameters.h",
        value := "provideOriginInput", hashTypeFunction := "sha256" }
      rfl rfl rfl).1 [97] rfl).1 rfl).trans rfl
  · exact (((getData_generateHashInput ext0 1 "contractParameters.h" (mHash "sha3")
      { type := .generateHashInput, name := "contractParameters.h",
        value := "provideOriginInput", hashTypeFunction := "sha3" }
      rfl rfl rfl).1 [97] rfl).2.1 rfl).trans rfl
  · exact (((getData_generateHashInput ext0 1 "contractParameters.h" (mHash "md5")
      { type := .generateHashInput, name := "contractParameters.h",
        value := "provideOriginInput", hashTypeFunction := "md5" }
      rfl rfl rfl).1 [97] rfl).2.2 (by decide) (by decide))
  · exact ((getData_generateHashInput ext0 1 "contractParameters.h" mHashNum
      { type := .generateHashInput, name := "contractParameters.h",
        value := "numberInput", hashTypeFunction := "sha256" }
      rfl rfl rfl).2 5 rfl)

/-- The try body of getContractArgs fails exactly when resolving some
parameter id fails. -/
theorem mapGetData_error (ext : Ext) (fuel : Nat) (m : InputMap) (ids : List String)
    (h : ∃ id ∈ ids, ∃ e, getData ext fuel id m = .error e) :
    ∃ e, mapGetData ext fuel m ids = .error e := by
  induction ids with
  | nil =>
    rcases h with ⟨id, hmem, _⟩
    cases hmem
  | cons a rest ih =>
    rcases h with ⟨id, hmem, e, he⟩
    rcases List.mem_cons.mp hmem with rfl | hmem2
    · exact ⟨e, by simp [mapGetData, he]⟩
    · cases hga : getData ext fuel a m with
      | error e2 => exact ⟨e2, by simp [mapGetData, hga]⟩
      | ok d =>
        obtain ⟨e2, he2⟩ := ih ⟨id, hmem2, e, he⟩
        exact ⟨e2, by simp [mapGetData, hga, he2]⟩

/-- The try body of getContractArgs returns the pointwise getData results
when every parameter id resolves. -/
theorem mapGetData_ok (ext : Ext) (fuel : Nat) (m : InputMap) (ids : List String)
    (h : ∀ id ∈ ids, ∃ d, getData ext fuel id m = .ok d) :
    ∃ l, mapGetData ext fuel m ids = .ok l ∧ l.length = ids.length ∧
      ∀ i : Nat, ∀ hi : i < ids.length, ∀ hl : i < l.length,
        getData ext fuel (ids.get ⟨i, hi⟩) m = .ok (l.get ⟨i, hl⟩) := by
  induction ids with
  | nil => exact ⟨[], rfl, rfl, fun i hi => absurd hi (by simp)⟩
  | cons a rest ih =>
    obtain ⟨d, hd⟩ := h a (by simp)
    obtain ⟨l, hl, hlen, hpt⟩ := ih (fun id hmem => h id (by simp [hmem]))
    refine ⟨d :: l, by simp [mapGetData, hd, hl], by simp [hlen], ?_⟩
    intro i hi hli
    cases i with
    | zero => simpa using hd
    | succ j => simpa using hpt j (by simpa using hi) (by simpa using hli)

/-- C8: getContractArgs throws when the parameter-id list is undefined;
otherwise a failing resolution of any parameter id is caught and converted
to the empty list, and when every id resolves the results come back in
parameter order. -/
theorem getContractArgs_spec (ext : Ext) (fuel : Nat) (st : AppState) (m : InputMap) :
    (getParameterIds st = none →
      getContractArgs ext fuel st m =
        .error (.thrown "parameter IDs should not be undefined when getParameterData is called")) ∧
    (∀ pids, getParameterIds st = some pids →
      ((∃ id ∈ pids, ∃ e, getData ext fuel id m = .error e) →
        getContractArgs ext fuel st m = .ok []) ∧
      ((∀ id ∈ pids, ∃ d, getData ext fuel id m = .ok d) →
        ∃ l, getContractArgs ext fuel st m = .ok l ∧ l.length = pids.length ∧
          ∀ i : Nat, ∀ hi : i < pids.length, ∀ hl : i < l.length,
            getData ext fuel (pids.get ⟨i, hi⟩) m = .ok (l.get ⟨i, hl⟩))) := by
  constructor
  · intro h
    simp [getContractArgs, h]
  · intro pids hp
    constructor
    · intro h
      obtain ⟨e, he⟩ := mapGetData_error ext fuel m pids h
      simp [getContractArgs, hp, he]
    · intro h
      obtain ⟨l, hl, hlen, hpt⟩ := mapGetData_ok ext fuel m pids h
      exact ⟨l, by simp [getContractArgs, hp, hl], hlen, hpt⟩

/-- Witness for C8: with no compile result the parameter-id list is
undefined and getContractArgs throws; with a declared parameter that is
missing from the map the failure is caught and the empty list returned;
with a resolvable boolean parameter the single result comes back. -/
theorem getContractArgs_spec_witness :
    getContractArgs ext0 1 st0 [] =
      .error (.thrown "parameter IDs should not be undefined when getParameterData is called") ∧
    getContractArgs ext0 1 stP [] = .ok [] ∧
    getContractArgs ext0 1 stP mBool = .ok [.num 1] := by
  refine ⟨?_, ?_, ?_⟩
  · exact (getContractArgs_spec ext0 1 st0 []).1 rfl
  · exact ((getContractArgs_spec ext0 1 stP []).2 ["contractParameters.p"] rfl).1
      ⟨"contractParameters.p", by simp, .typeError, rfl⟩
  · obtain ⟨l, hl, hlen, hpt⟩ :=
      ((getContractArgs_spec ext0 1 stP mBool).2 ["contractParameters.p"] rfl).2
        (by
          intro id hid
          simp only [List.mem_singleton] at hid
          subst hid
          exact ⟨.num 1, rfl⟩)
    rcases l with _ | ⟨x, l2⟩
    · simp at hlen
    · rcases l2 with _ | ⟨y, l3⟩
      · have hx := hpt 0 (by simp) (by simp)
        simp only [List.get] at hx
        have hx2 : (Except.ok (GData.num 1) : Except JsError GData) = .ok x := by
          rw [← hx]
          rfl
        cases hx2
        exact hl
      · simp at hlen

/-- The funding-source loop agrees with the declarative per-entry
qualification whenever every valueInput entry has the four children the
loop reads. -/
theorem collectValueSources_eq (m : InputMap) (l : List Input)
    (h : ∀ input ∈ l, input.type = .valueInput →
      (m.lookup (input.name ++ ".accountInput")).isSome ∧
      (m.lookup (input.name ++ ".assetInput")).isSome ∧
      (m.lookup (input.name ++ ".amountInput")).isSome ∧
      (m.lookup (input.name ++ ".passwordInput")).isSome) :
    collectValueSources m l = .ok (l.filterMap (qualifyingSpend m)) := by
  induction l with
  | nil => rfl
  | cons input rest ih =>
    have hrest := ih (fun i hi hti => h i (List.mem_cons_of_mem _ hi) hti)
    by_cases ht : input.type = .valueInput
    · obtain ⟨ha, hb, hc, hd⟩ := h input (List.mem_cons_self _ _) ht
      obtain ⟨ia, hia⟩ := Option.isSome_iff_exists.mp ha
      obtain ⟨ib, hib⟩ := Option.isSome_iff_exists.mp hb
      obtain ⟨ic, hic⟩ := Option.isSome_iff_exists.mp hc
      obtain ⟨ip, hip⟩ := Option.isSome_iff_exists.mp hd
      simp only [collectValueSources, ht, if_true, lookupE, hia, hib, hic, hip, okBind,
        hrest, List.filterMap_cons, qualifyingSpend, childValue, Option.map_some]
      cases hp : parseIntJS ic.value with
      | none => simp [hp]
      | some k =>
        by_cases hcond : k < 0 ∨ ia.value = "" ∨ ib.value = ""
        · simp [hp, hcond]
        · simp [hp, hcond]
    · simp only [collectValueSources, ht, if_false, List.filterMap_cons, qualifyingSpend]
      simp [ht, hrest]

/-- C2: under presence of the four read children, getContractValue returns
a SpendFromAccount exactly when exactly one valueInput entry qualifies
(non-empty accountInput and assetInput child values, amountInput parsing to
a non-negative integer), the result copying that entry's child values, and
returns none exactly when the number of qualifying entries is not one. -/
theorem getContractValue_unique (m : InputMap) (h : valueChildrenPresent m) :
    (∀ s, getContractValue m = .ok (some s) ↔ qualifyingSpends m = [s]) ∧
    (getContractValue m = .ok none ↔ (qualifyingSpends m).length ≠ 1) := by
  have hc := collectValueSources_eq m (getInputList m) h
  have hg : getContractValue m =
      (match qualifyingSpends m with
       | [s] => Except.ok (some s)
       | _ => Except.ok none) := by
    simp only [getContractValue, hc, okBind, qualifyingSpends]
  rcases hq : qualifyingSpends m with _ | ⟨a, _ | ⟨b, t⟩⟩ <;> rw [hq] at hg
  · constructor
    · intro s
      simp [hg, hq]
    · simp [hg, hq]
  · constructor
    · intro s
      simp only [hg, hq]
      constructor
      · intro hs
        simp only [Except.ok.injEq, Option.some.injEq] at hs
        rw [hs]
      · intro hs
        simp only [List.cons.injEq, and_true] at hs
        rw [hs]
    · simp [hg, hq]
  · constructor
    · intro s
      simp [hg, hq]
    · simp [hg, hq]

/-- Witness for C2: the fully populated single valueInput subtree yields
the copied SpendFromAccount with amount 500, and the empty map (zero
qualifying entries) yields none. -/
theorem getContractValue_unique_witness :
    getContractValue mExample =
      .ok (some { accountId := "acc1", assetId := "asset1", amount := 500, password := "pw" }) ∧
    getContractValue ([] : InputMap) = .ok none := by
  constructor
  · exact ((getContractValue_unique mExample (by decide)).1
      { accountId := "acc1", assetId := "asset1", amount := 500, password := "pw" }).mpr
      (by decide)
  · exact (getContractValue_unique [] (by decide)).2.mpr (by decide)

/-- C9: the funding-source scan decides qualification without inspecting
the passwordInput or gasInput children: with non-empty account and asset
child values and a non-negative parsed amount, a SpendFromAccount is
produced even though the map carries no gasInput child at all, and the
passwordInput child's (possibly empty) value is copied unchecked into the
result. -/
theorem getContractValue_password_gas_not_checked (acc ast amt pwd : String) (k : Int)
    (hacc : acc ≠ "") (hast : ast ≠ "") (hamt : parseIntJS amt = some k) (hk : 0 ≤ k) :
    getContractValue (valueMapNoGas acc ast amt pwd) =
      .ok (some { accountId := acc, assetId := ast, amount := k, password := pwd }) := by
  have h2 : ¬ (k < 0 ∨ acc = "" ∨ ast = "") := by
    push_neg
    exact ⟨hk, hacc, hast⟩
  have e1 : collectValueSources (valueMapNoGas acc ast amt pwd)
      (getInputList (valueMapNoGas acc ast amt pwd)) =
      (match parseIntJS amt with
       | none => Except.ok ([] : List SpendFromAccount)
       | some amount =>
           if amount < 0 ∨ acc = "" ∨ ast = "" then Except.ok []
           else Except.ok [{ accountId := acc, assetId := ast, amount := amount,
                             password := pwd }]) := rfl
  simp only [getContractValue, e1, hamt, okBind]
  simp [h2]

/-- Witness for C9: a concrete fully qualifying valueInput subtree with an
empty password child value and no gasInput child yields the
SpendFromAccount carrying the empty password. -/
theorem getContractValue_password_gas_not_checked_witness :
    getContractValue (valueMapNoGas "acc1" "asset1" "500" "") =
      .ok (some { accountId := "acc1", assetId := "asset1", amount := 500, password := "" }) :=
  getContractValue_password_gas_not_checked "acc1" "asset1" "500" "" 500
    (by decide) (by decide) (by decide) (by decide)

/-- A hex digit character produced for a value below 16 is a decimal digit
or a lowercase letter between a and f. -/
theorem hexCharLower (n : Nat) (hn : n < 16) :
    ((hexChar n).isDigit || (decide ('a' ≤ hexChar n) && decide (hexChar n ≤ 'f'))) = true := by
  interval_cases n <;> decide

/-- Every character of the hex rendering of a byte list is a decimal digit
or a lowercase letter between a and f. -/
theorem bytesToHexLower (l : List Nat) :
    ((bytesToHex l).toList.all
      fun c => c.isDigit || (decide ('a' ≤ c) && decide (c ≤ 'f'))) = true := by
  suffices h : ((l.foldr (fun b acc => byteToHex b ++ acc) ([] : List Char)).all
      fun c => c.isDigit || (decide ('a' ≤ c) && decide (c ≤ 'f'))) = true by exact h
  induction l with
  | nil => rfl
  | cons b t ih =>
    rw [List.foldr_cons, List.all_append, ih, Bool.and_true]
    simp only [byteToHex, List.all_cons, List.all_nil, Bool.and_true]
    rw [hexCharLower _ (Nat.mod_lt _ (by norm_num)),
        hexCharLower _ (Nat.mod_lt _ (by norm_num))]
    rfl

/-- C5: the create flow coerces each resolved argument to exactly one
tagged wire value: a byte payload to its lowercase hex rendering tagged
string (every character a digit or lowercase a-f), a textual value to a
tagged string, a numeric value to a tagged integer, a boolean to a tagged
boolean; any other runtime type throws the unsupported-argument-type
message. -/
theorem coerceArg_tagging :
    (∀ b : List Nat, coerceArg (.buffer b) = .ok (.stringVal (bytesToHex b)) ∧
      ((bytesToHex b).toList.all
        fun c => c.isDigit || (decide ('a' ≤ c) && decide (c ≤ 'f'))) = true) ∧
    (∀ s, coerceArg (.stringArg s) = .ok (.stringVal s)) ∧
    (∀ n, coerceArg (.numberArg n) = .ok (.integerVal n)) ∧
    (∀ b, coerceArg (.booleanArg b) = .ok (.booleanVal b)) ∧
    (∀ t, coerceArg (.otherArg t) = .error (.thrown ("unsupported argument type " ++ t))) :=
  ⟨fun b => ⟨rfl, bytesToHexLower b⟩, fun _ => rfl, fun _ => rfl, fun _ => rfl, fun _ => rfl⟩

/-- C7 counterexample: on a generatePublicKeyInput with value accountInput
the first-declared switch case is the one a JavaScript switch dispatches
to, so validateInput returns false, refuting the claim that the
later-declared duplicate case (accepting exactly accountInput) executes. -/
theorem validateInput_generatePublicKey_counterexample :
    ¬ (validateInput ext0 gpkAccountInput = .ok true ↔
        gpkAccountInput.value = "accountInput") := by
  intro hiff
  have h := hiff.mpr rfl
  have h2 : validateInput ext0 gpkAccountInput = .ok false := rfl
  rw [h2] at h
  simp at h

/-- C7 amended: for every generatePublicKeyInput, the executed branch is
the earlier-declared case, so validateInput returns true exactly when the
value is generatePrivateKeyInput or providePrivateKeyInput. -/
theorem validateInput_generatePublicKey (ext : Ext) (input : Input)
    (ht : input.type = .generatePublicKeyInput) :
    validateInput ext input =
      .ok (input.value == "generatePrivateKeyInput" ||
           input.value == "providePrivateKeyInput") := by
  simp [validateInput, ht]

/-- Witness for C7: a generatePublicKeyInput with value
generatePrivateKeyInput validates, one with value accountInput does not. -/
theorem validateInput_generatePublicKey_witness :
    validateInput ext0
      { type := .generatePublicKeyInput,
        name := "contractParameters.k.generatePublicKeyInput",
        value := "generatePrivateKeyInput" } = .ok true := by
  have h := validateInput_generatePublicKey ext0
    { type := .generatePublicKeyInput,
      name := "contractParameters.k.generatePublicKeyInput",
      value := "generatePrivateKeyInput" } rfl
  simpa using h

/-- C10: getData and isValidInput are partial in the input id: a missing id
fails with the untyped TypeError of a field access on an undefined lookup,
not with a thrown InvalidInput or a false result, and the same TypeError
surfaces when a chain input's recursively formed child id is missing. -/
theorem getData_isValidInput_missing_key (ext : Ext) (fuel : Nat) (id : String) (m : InputMap) :
    (m.lookup id = none →
      getData ext (fuel + 1) id m = .error .typeError ∧
      isValidInput ext (fuel + 1) id m = .error .typeError) ∧
    (∀ input, m.lookup id = some input → input.type = .stringInput →
      m.lookup (getChild input) = none →
      ((input.value = "generateStringInput" ∨ input.value = "provideStringInput") →
        getData ext (fuel + 2) id m = .error .typeError) ∧
      isValidInput ext (fuel + 2) id m = .error .typeError) := by
  constructor
  · intro h
    constructor <;> simp [getData, isValidInput, h]
  · intro input hm ht hc
    constructor
    · intro hv
      have hval : validateInput ext input = .ok true := by
        rcases hv with h | h <;> simp [validateInput, ht, h]
      simp [getData, hm, hval, ht, hc]
    · simp [isValidInput, hm, ht, hc]

/-- Witness for C10: a lookup of an absent id and of an absent child id
both surface the TypeError. -/
theorem getData_isValidInput_missing_key_witness :
    (getData ext0 1 "contractParameters.x" [] = .error .typeError ∧
     isValidInput ext0 1 "contractParameters.x" [] = .error .typeError) ∧
    getData ext0 2 "contractParameters.s"
      [("contractParameters.s",
        { type := .stringInput, name := "contractParameters.s",
          value := "generateStringInput" })] = .error .typeError := by
  constructor
  · exact (getData_isValidInput_missing_key ext0 0 "contractParameters.x" []).1 rfl
  · exact ((getData_isValidInput_missing_key ext0 0 "contractParameters.s"
      [("contractParameters.s",
        { type := .stringInput, name := "contractParameters.s",
          value := "generateStringInput" })]).2 _ rfl rfl rfl).1 (Or.inl rfl)

end EquityConsole
